import Mathlib

/-!
Verification of the pptx-studio-ide bridging server and its callback/save
protocol, as implemented in `fileServer.ts` (class `FileServer`) and
`pptxEditorProvider.ts` (class `PptxEditorProvider`).

The embedding is shallow: the JavaScript `Map` registries become association
lists over `String` keys, filesystem contents become a total function from
paths to optional byte lists, and the asynchronous environment (the OS port
assignment of `listen`, the outcome of the outbound `http.get` fetch, and the
outcome of the write stream) is passed in as explicit data.
-/

/-- Association-list lookup, modelling JavaScript `Map.get`. -/
def mapGet (m : List (String × α)) (k : String) : Option α :=
  match m with
  | [] => none
  | kv :: tl => if kv.1 = k then some kv.2 else mapGet tl k

/-- Association-list removal, modelling JavaScript `Map.delete`. -/
def mapDelete (m : List (String × α)) (k : String) : List (String × α) :=
  match m with
  | [] => []
  | kv :: tl => if kv.1 = k then mapDelete tl k else kv :: mapDelete tl k

/-- Association-list update, modelling JavaScript `Map.set`: the key is bound
to the new value and any previous binding for it is dropped. -/
def mapSet (m : List (String × α)) (k : String) (v : α) : List (String × α) :=
  (k, v) :: mapDelete m k

theorem mapGet_mapSet_self (m : List (String × α)) (k : String) (v : α) :
    mapGet (mapSet m k v) k = some v := by
  simp [mapSet, mapGet]

theorem mapGet_mapDelete_self (m : List (String × α)) (k : String) :
    mapGet (mapDelete m k) k = none := by
  induction m with
  | nil => rfl
  | cons hd tl ih =>
    by_cases h : hd.1 = k
    · simpa [mapDelete, h] using ih
    · simpa [mapDelete, mapGet, h] using ih

theorem mapGet_mapDelete_ne (m : List (String × α)) (k k' : String) (h : k' ≠ k) :
    mapGet (mapDelete m k) k' = mapGet m k' := by
  induction m with
  | nil => rfl
  | cons hd tl ih =>
    by_cases hk : hd.1 = k
    · have hne : ¬hd.1 = k' := fun hx => h (hx ▸ hk)
      simp only [mapDelete, if_pos hk, mapGet, if_neg hne]
      exact ih
    · by_cases hk' : hd.1 = k'
      · simp only [mapDelete, if_neg hk, mapGet, if_pos hk']
      · simp only [mapDelete, if_neg hk, mapGet, if_neg hk']
        exact ih

theorem mapGet_mapSet_ne (m : List (String × α)) (k k' : String) (v : α) (h : k' ≠ k) :
    mapGet (mapSet m k v) k' = mapGet m k' := by
  have := mapGet_mapDelete_ne m k k' h
  simpa [mapSet, mapGet, Ne.symm h] using this

theorem mapDelete_of_mapGet_none (m : List (String × α)) (k : String)
    (h : mapGet m k = none) : mapDelete m k = m := by
  induction m with
  | nil => rfl
  | cons hd tl ih =>
    by_cases hk : hd.1 = k
    · simp [mapGet, hk] at h
    · have h' : mapGet tl k = none := by
        simpa [mapGet, hk] using h
      simp [mapDelete, hk, ih h']

/-- Path helper modelling Node's `path.basename` for forward-slash paths:
the component after the last `/` (the whole path when there is none). -/
def basename (p : String) : String :=
  String.mk ((p.toList.reverse.takeWhile (fun c => !(c == '/'))).reverse)

/-- Path helper modelling Node's `path.extname`: the suffix of the basename
from its last `.` inclusive, or `""` when the basename has no dot or only a
leading dot. -/
def extname (p : String) : String :=
  let b := (basename p).toList
  match b.reverse.findIdx? (fun c => c == '.') with
  | none => ""
  | some i =>
    if i + 1 = b.length then ""
    else String.mk ((b.reverse.take (i + 1)).reverse)

/-- Record stored in `FileServer.servedFiles` for one registered token
(`ServedFile` in `fileServer.ts`; the redundant `uri` field, which is only
another view of `filePath`, is omitted). -/
structure ServedFile where
  filePath : String
  token : String
  mimeType : String
deriving DecidableEq

/-- Mutable state of the `FileServer` class. `server` models whether
`this.server` is non-null (the `http.Server` object exists); the callback
handler closures of `callbackHandlers` are identified by opaque numeric
ids, since only their presence and identity matter to the server. -/
structure FileServerState where
  server : Bool
  servedFiles : List (String × ServedFile)
  port : Nat
  hostIp : String
  callbackHandlers : List (String × Nat)
deriving DecidableEq

/-- State of a freshly constructed `FileServer` (constructor plus field
initializers); `getHostIp` probes the OS network interfaces, so the detected
address is a parameter. -/
def initState (ip : String) : FileServerState :=
  ⟨false, [], 0, ip, []⟩

/-- Environment outcome of `server.listen(0, '0.0.0.0', ...)`: either the OS
binds an ephemeral port, or the `error` event fires. -/
inductive StartOutcome where
  | bound (p : Nat)
  | failed
deriving DecidableEq

/-- Result of the promise returned by `start()`. -/
inductive StartResult where
  | ok (port : Nat)
  | err (msg : String)
deriving DecidableEq

/-- The `start()` method. If `this.server` is already non-null it resolves at
once with the recorded port. Otherwise it creates the server object and
listens; the listen callback records the OS-assigned port and resolves with
it, while the `error` event rejects — note that in the rejection case the
server object has already been assigned and the port is still 0. -/
def start (s : FileServerState) (os : StartOutcome) : StartResult × FileServerState :=
  if s.server then
    (StartResult.ok s.port, s)
  else
    match os with
    | StartOutcome.bound p =>
      (StartResult.ok p, { s with server := true, port := p })
    | StartOutcome.failed =>
      (StartResult.err "listen error", { s with server := true })

/-- The `stop()` method: only when the server object exists does it close the
socket, null the server, reset the port to 0 and clear both registries. -/
def stop (s : FileServerState) : FileServerState :=
  if s.server then ⟨false, [], 0, s.hostIp, []⟩ else s

/-- The MIME map of `registerFile`. -/
def mimeTypes : List (String × String) :=
  [(".pptx", "application/vnd.openxmlformats-officedocument.presentationml.presentation"),
   (".ppt", "application/vnd.ms-powerpoint"),
   (".docx", "application/vnd.openxmlformats-officedocument.wordprocessingml.document"),
   (".xlsx", "application/vnd.openxmlformats-officedocument.spreadsheetml.sheet")]

/-- Character-wise lower-casing, modelling `String.prototype.toLowerCase()`
on the ASCII extensions it is applied to. -/
def lowerString (s : String) : String :=
  String.mk (s.toList.map Char.toLower)

/-- MIME type derived from a file path, as in `registerFile`:
`mimeTypes[ext] || 'application/octet-stream'` over the lower-cased
extension. -/
def mimeFor (filePath : String) : String :=
  (mapGet mimeTypes (lowerString (extname filePath))).getD "application/octet-stream"

/-- Return value of `registerFile`. -/
structure RegisterResult where
  url : String
  token : String
  callbackUrl : String
deriving DecidableEq

/-- The `registerFile(uri)` method. The token comes from
`crypto.randomBytes(16).toString('hex')`, so it is a parameter here; the URLs
embed the currently recorded host IP and port, whatever they are. -/
def registerFile (s : FileServerState) (token : String) (filePath : String) :
    RegisterResult × FileServerState :=
  let record : ServedFile := ⟨filePath, token, mimeFor filePath⟩
  (⟨"http://" ++ s.hostIp ++ ":" ++ toString s.port ++ "/file/" ++ token,
    token,
    "http://" ++ s.hostIp ++ ":" ++ toString s.port ++ "/callback/" ++ token⟩,
   { s with servedFiles := mapSet s.servedFiles token record })

/-- The `unregisterFile(token)` method: deletes the token from both maps. -/
def unregisterFile (s : FileServerState) (token : String) : FileServerState :=
  { s with
    servedFiles := mapDelete s.servedFiles token,
    callbackHandlers := mapDelete s.callbackHandlers token }

/-- The `onCallback(token, handler)` method: binds (or overwrites) the
handler for a token. -/
def onCallback (s : FileServerState) (token : String) (handler : Nat) : FileServerState :=
  { s with callbackHandlers := mapSet s.callbackHandlers token handler }

/-- The `getPort()` method. -/
def getPort (s : FileServerState) : Nat :=
  s.port

/-- Filesystem contents: a path either holds a file with some byte contents
or no file at all. -/
def FS : Type := String → Option (List Nat)

/-- Overwrite the file at a path. -/
def fsWrite (fs : FS) (p : String) (bs : List Nat) : FS :=
  fun q => if q = p then some bs else fs q

/-- Delete the file at a path, modelling `fs.unlink`. -/
def fsErase (fs : FS) (p : String) : FS :=
  fun q => if q = p then none else fs q

/-- Body of an HTTP response: file bytes or plain text. -/
inductive Body where
  | binary (bs : List Nat)
  | text (s : String)
deriving DecidableEq

/-- The observable parts of an HTTP response produced by the server:
status code, `Content-Type`, optional `Content-Length` and
`Content-Disposition` headers, and the body. -/
structure HttpResponse where
  status : Nat
  contentType : String
  contentLength : Option Nat
  contentDisposition : Option String
  body : Body
deriving DecidableEq

/-- The 404 response of `serveFile` for an unknown token. -/
def fileNotFound : HttpResponse :=
  ⟨404, "text/plain", none, none, Body.text "File not found"⟩

/-- The `serveFile(token, res)` route handler: look the token up in
`servedFiles`; unknown tokens get a 404, a failing `fs.statSync` (no file at
the recorded path) lands in the catch block with a 500, and otherwise the
file is streamed back with `Content-Type` from the record, `Content-Length`
from the stat size, and a `Content-Disposition` attachment header naming the
basename. -/
def serveFile (s : FileServerState) (fs : FS) (token : String) : HttpResponse :=
  match mapGet s.servedFiles token with
  | none => fileNotFound
  | some fileInfo =>
    match fs fileInfo.filePath with
    | none => ⟨500, "text/plain", none, none, Body.text "Error reading file"⟩
    | some bytes =>
      ⟨200, fileInfo.mimeType, some bytes.length,
       some ("attachment; filename=\"" ++ basename fileInfo.filePath ++ "\""),
       Body.binary bytes⟩

/-- Parsed shape of an OnlyOffice callback payload (`OnlyOfficeCallback` in
the source): a numeric status plus optional download url and document key. -/
structure OnlyOfficeCallback where
  status : Int
  url : Option String
  key : Option String
deriving DecidableEq

/-- The `handleCallback(token, req, res)` route handler, after the request
body has been buffered. `parsed` is the outcome of `JSON.parse` on the body:
`none` when parsing throws (landing in the catch block, a 500 with
`{"error":1}`), `some data` otherwise. On a parsed body the bound handler, if
any, is invoked — it is an `async` function, so invoking it returns a promise
at once and cannot throw here — and the response is always a 200 with
`{"error":0}`. The boolean records whether a handler was invoked. -/
def handleCallback (s : FileServerState) (token : String)
    (parsed : Option OnlyOfficeCallback) : HttpResponse × Bool :=
  match parsed with
  | none =>
    (⟨500, "application/json", none, none, Body.text "\x7b\"error\":1\x7d"⟩, false)
  | some _ =>
    (⟨200, "application/json", none, none, Body.text "\x7b\"error\":0\x7d"⟩,
     (mapGet s.callbackHandlers token).isSome)

/-- Outcome of piping the download response into the write stream: either the
`finish` event fires after all bytes were written, or the write stream errors
after some bytes were written. -/
inductive StreamOutcome where
  | finished (bytes : List Nat)
  | writeError (written : List Nat)
deriving DecidableEq

/-- Environment outcome of `http.get(downloadUrl, ...)`: a connection error
(the `error` event on the request), or a response with a status code whose
body then streams with the given outcome. -/
inductive FetchOutcome where
  | connectError
  | response (statusCode : Nat) (stream : StreamOutcome)
deriving DecidableEq

/-- Resolution of the promise returned by `saveDocument`. -/
inductive SaveResult where
  | saved
  | failedDownload (statusCode : Nat)
  | failedWrite
  | failedConnect
deriving DecidableEq

/-- The `saveDocument(downloadUrl, targetUri)` method of
`PptxEditorProvider`. A connection error rejects before anything is written.
A response with status other than 200 rejects before the write stream is
created, leaving the filesystem untouched. Otherwise
`fs.createWriteStream(targetUri.fsPath)` truncates the target in place and
the response is piped into it: on `finish` the target holds the downloaded
bytes and the promise resolves; on a write-stream `error` the bytes written
so far are at the target, then `fs.unlink` deletes the target and the promise
rejects. -/
def saveDocument (env : FetchOutcome) (fs : FS) (targetPath : String) :
    SaveResult × FS :=
  match env with
  | FetchOutcome.connectError => (SaveResult.failedConnect, fs)
  | FetchOutcome.response statusCode stream =>
    if statusCode ≠ 200 then
      (SaveResult.failedDownload statusCode, fs)
    else
      match stream with
      | StreamOutcome.finished bytes =>
        (SaveResult.saved, fsWrite fs targetPath bytes)
      | StreamOutcome.writeError written =>
        (SaveResult.failedWrite, fsErase (fsWrite fs targetPath written) targetPath)

/-- JavaScript truthiness of the optional `data.url` string, as tested by
`if (downloadUrl)`: an absent field and the empty string are both falsy. -/
def truthyUrl : Option String → Option String
  | some u => if u = "" then none else some u
  | none => none

/-- Result of one run of the save reconciler: the filesystem afterwards,
whether a save (download-and-write cycle) was initiated, and the
`saveComplete` message posted to the webview (`some true` on success,
`some false` on failure, `none` when no save was attempted). -/
structure ReconcileResult where
  fs : FS
  saveAttempted : Bool
  message : Option Bool

/-- The `handleOnlyOfficeCallback(data, document, webviewPanel)` method: only
when `status` is 2 or 6 and `data.url` is truthy does it run `saveDocument`
on the download URL and the document's path, posting `saveComplete` with the
outcome; every other payload leaves the filesystem alone. -/
def handleOnlyOfficeCallback (data : OnlyOfficeCallback) (env : FetchOutcome)
    (fs : FS) (targetPath : String) : ReconcileResult :=
  if data.status = 2 ∨ data.status = 6 then
    match truthyUrl data.url with
    | some _ =>
      match saveDocument env fs targetPath with
      | (SaveResult.saved, fs') => ⟨fs', true, some true⟩
      | (_, fs') => ⟨fs', true, some false⟩
    | none => ⟨fs, false, none⟩
  else ⟨fs, false, none⟩

/-- Example filesystem with a single three-byte file at `/t.pptx`. -/
def fsSample : FS :=
  fun p => if p = "/t.pptx" then some [1, 2, 3] else none

/-- Example empty filesystem. -/
def fsEmpty : FS :=
  fun _ => none

/-- C1. The save reconciler initiates a save (fetch from the download URL and
write to the target file) if and only if the callback status is 2 or 6 and a
download URL is present (truthy) in the payload; whenever no save is
initiated, the filesystem — in particular the target file — is unchanged. -/
theorem save_reconciler_decision (data : OnlyOfficeCallback) (env : FetchOutcome)
    (fs : FS) (targetPath : String) :
    ((handleOnlyOfficeCallback data env fs targetPath).saveAttempted = true
      ↔ (data.status = 2 ∨ data.status = 6) ∧ (truthyUrl data.url).isSome = true)
    ∧ ((handleOnlyOfficeCallback data env fs targetPath).saveAttempted = false →
        (handleOnlyOfficeCallback data env fs targetPath).fs = fs) := by
  by_cases hs : data.status = 2 ∨ data.status = 6
  · cases hu : truthyUrl data.url with
    | none => simp [handleOnlyOfficeCallback, hs, hu]
    | some u =>
      cases hr : saveDocument env fs targetPath with
      | mk r fs' =>
        cases r <;> simp [handleOnlyOfficeCallback, hs, hu, hr]
  · simp [handleOnlyOfficeCallback, hs]

/-- Witness for C1 at a concrete editing-in-progress payload (status 1):
no save is attempted and the filesystem is untouched. -/
theorem save_reconciler_decision_witness :
    (handleOnlyOfficeCallback ⟨1, some "http://x/dl", none⟩ FetchOutcome.connectError
        fsSample "/t.pptx").saveAttempted = false
    ∧ (handleOnlyOfficeCallback ⟨1, some "http://x/dl", none⟩ FetchOutcome.connectError
        fsSample "/t.pptx").fs = fsSample := by
  refine ⟨by decide, ?_⟩
  exact (save_reconciler_decision ⟨1, some "http://x/dl", none⟩ FetchOutcome.connectError
    fsSample "/t.pptx").2 (by decide)

/-- C2 counterexample. Before the save, `/t.pptx` holds the previous-good
content `[1, 2, 3]`. The download responds 200 but the write stream errors
after one byte. The code then unlinks the target, so afterwards the target
path holds *no file at all* — neither the previous-good version (which the
write stream had already truncated in place) nor the new one — refuting the
claim that the target is always either the previous-good version or the new
one. -/
theorem save_write_error_counterexample :
    fsSample "/t.pptx" = some [1, 2, 3]
    ∧ (saveDocument (FetchOutcome.response 200 (StreamOutcome.writeError [9]))
        fsSample "/t.pptx").fst = SaveResult.failedWrite
    ∧ ((saveDocument (FetchOutcome.response 200 (StreamOutcome.writeError [9]))
        fsSample "/t.pptx").snd) "/t.pptx" = none := by
  exact ⟨rfl, rfl, rfl⟩

/-- C2 as amended. If a local write error occurs mid-stream during the save
procedure, the partially-written target file is deleted before the failure is
surfaced: the save rejects with a write failure, the target path afterwards
holds no file (in particular never a zero-length or truncated artifact), and
every other path is untouched. The previous-good content of the target is
lost, because the write stream truncates the target in place before
streaming. -/
theorem save_write_error_deletes_target (written : List Nat) (fs : FS)
    (targetPath : String) :
    (saveDocument (FetchOutcome.response 200 (StreamOutcome.writeError written))
        fs targetPath).fst = SaveResult.failedWrite
    ∧ ((saveDocument (FetchOutcome.response 200 (StreamOutcome.writeError written))
        fs targetPath).snd) targetPath = none
    ∧ ∀ q, q ≠ targetPath →
        ((saveDocument (FetchOutcome.response 200 (StreamOutcome.writeError written))
          fs targetPath).snd) q = fs q := by
  refine ⟨by simp [saveDocument], by simp [saveDocument, fsErase], ?_⟩
  intro q hq
  simp [saveDocument, fsErase, fsWrite, hq]

/-- Witness for C2 (amended) at the concrete counterexample input. -/
theorem save_write_error_deletes_target_witness :
    ((saveDocument (FetchOutcome.response 200 (StreamOutcome.writeError [9]))
        fsSample "/t.pptx").snd) "/t.pptx" = none
    ∧ ((saveDocument (FetchOutcome.response 200 (StreamOutcome.writeError [9]))
        fsSample "/t.pptx").snd) "/other" = fsSample "/other" := by
  refine ⟨(save_write_error_deletes_target [9] fsSample "/t.pptx").2.1, ?_⟩
  exact (save_write_error_deletes_target [9] fsSample "/t.pptx").2.2 "/other" (by decide)

/-- C8. If the HTTP fetch of the download URL returns a non-success status,
`saveDocument` rejects with a download failure and returns the filesystem
unchanged — the target file is not touched (the write stream is never
created). -/
theorem save_fetch_failure_untouched (statusCode : Nat) (stream : StreamOutcome)
    (fs : FS) (targetPath : String) (h : statusCode ≠ 200) :
    saveDocument (FetchOutcome.response statusCode stream) fs targetPath
      = (SaveResult.failedDownload statusCode, fs) := by
  simp [saveDocument, h]

/-- Witness for C8 at a concrete 404 fetch over the sample filesystem. -/
theorem save_fetch_failure_untouched_witness :
    saveDocument (FetchOutcome.response 404 (StreamOutcome.finished [7]))
        fsSample "/t.pptx"
      = (SaveResult.failedDownload 404, fsSample) := by
  exact save_fetch_failure_untouched 404 (StreamOutcome.finished [7]) fsSample
    "/t.pptx" (by decide)

/-- C3. For every POST to `/callback/{token}`: a body that fails to parse
gets a 500 with body `{"error":1}`; a body that parses gets a 200
`application/json` with body `{"error":0}` — also when the token has no bound
handler, in which case no handler is invoked (no reconciliation). The
response on a parsed body is by construction independent of the bound
handler's later, asynchronous outcome: `handleCallback` computes it without
consulting the handler's result. -/
theorem callback_route_responses (s : FileServerState) (token : String)
    (parsed : Option OnlyOfficeCallback) :
    (parsed = none →
      handleCallback s token parsed
        = (⟨500, "application/json", none, none, Body.text "\x7b\"error\":1\x7d"⟩, false))
    ∧ (∀ d, parsed = some d →
      (handleCallback s token parsed).fst
        = ⟨200, "application/json", none, none, Body.text "\x7b\"error\":0\x7d"⟩)
    ∧ (∀ d, parsed = some d → mapGet s.callbackHandlers token = none →
      (handleCallback s token parsed).snd = false) := by
  refine ⟨fun h => by simp [handleCallback, h], fun d h => by simp [handleCallback, h], ?_⟩
  intro d h hnone
  simp [handleCallback, h, hnone]

/-- Witness for C3: on the fresh server (no handler bound for `"t"`), a
malformed body gets the 500 `{"error":1}` response, and a parsed status-1
body gets the 200 `{"error":0}` response with no handler invoked. -/
theorem callback_route_responses_witness :
    handleCallback (initState "127.0.0.1") "t" none
      = (⟨500, "application/json", none, none, Body.text "\x7b\"error\":1\x7d"⟩, false)
    ∧ (handleCallback (initState "127.0.0.1") "t" (some ⟨1, none, none⟩)).fst
      = ⟨200, "application/json", none, none, Body.text "\x7b\"error\":0\x7d"⟩
    ∧ (handleCallback (initState "127.0.0.1") "t" (some ⟨1, none, none⟩)).snd = false := by
  refine ⟨(callback_route_responses (initState "127.0.0.1") "t" none).1 rfl, ?_, ?_⟩
  · exact (callback_route_responses (initState "127.0.0.1") "t"
      (some ⟨1, none, none⟩)).2.1 ⟨1, none, none⟩ rfl
  · exact (callback_route_responses (initState "127.0.0.1") "t"
      (some ⟨1, none, none⟩)).2.2 ⟨1, none, none⟩ rfl rfl

/-- C5. `start()` is idempotent: on an already-started server it returns the
recorded port without touching the state and without rejecting, whatever the
environment does; and starting a stopped server at OS-assigned port `p` and
then calling `start()` again returns `p` both times, the second call leaving
the state exactly as the first left it. -/
theorem start_idempotent (s : FileServerState) (os₁ os₂ : StartOutcome) (p : Nat) :
    (s.server = true → start s os₁ = (StartResult.ok s.port, s))
    ∧ (s.server = false →
        (start s (StartOutcome.bound p)).fst = StartResult.ok p
        ∧ start ((start s (StartOutcome.bound p)).snd) os₂
            = (StartResult.ok p, (start s (StartOutcome.bound p)).snd)) := by
  constructor
  · intro h
    simp [start, h]
  · intro h
    constructor
    · simp [start, h]
    · simp [start, h]

/-- Witness for C5: from the fresh state, a first `start()` bound at port 7
returns 7 and a second `start()` returns 7 again without changing state. -/
theorem start_idempotent_witness :
    (start (initState "127.0.0.1") (StartOutcome.bound 7)).fst = StartResult.ok 7
    ∧ start ((start (initState "127.0.0.1") (StartOutcome.bound 7)).snd)
        StartOutcome.failed
      = (StartResult.ok 7, (start (initState "127.0.0.1") (StartOutcome.bound 7)).snd) := by
  exact (start_idempotent (initState "127.0.0.1") (StartOutcome.bound 7)
    StartOutcome.failed 7).2 rfl

/-- C6 counterexample. `registerFile` stores records even while the server is
stopped, and `stop()` on a stopped server is a no-op that does **not** clear
the registry. So: register token `"t1"` on the fresh (stopped) server, call
`stop()` (no-op), then `start()` — the token registered before the stop is
still known and `GET /file/t1` answers 200, not 404, refuting the claim's
consequence that after `stop()` followed by `start()` every token registered
before the stop is unknown. -/
theorem stop_start_counterexample :
    serveFile
        ((start (stop ((registerFile (initState "127.0.0.1") "t1" "/t.pptx").snd))
          (StartOutcome.bound 5)).snd)
        fsSample "t1"
      ≠ fileNotFound
    ∧ (serveFile
        ((start (stop ((registerFile (initState "127.0.0.1") "t1" "/t.pptx").snd))
          (StartOutcome.bound 5)).snd)
        fsSample "t1").status = 200 := by
  exact ⟨by decide, by decide⟩

/-- C6 as amended. `stop()` on a started server closes the socket, clears all
file records and callback bindings and resets the recorded port to 0;
`stop()` on a non-started server is a no-op (even when records were
registered while stopped). Consequently, after `stop()` **on a started
server** followed by `start()`, every token registered before the stop is
unknown: `GET /file/{token}` answers 404 for every token. -/
theorem stop_clears_started_server (s : FileServerState) :
    (s.server = true → stop s = ⟨false, [], 0, s.hostIp, []⟩)
    ∧ (s.server = false → stop s = s)
    ∧ (s.server = true → ∀ os tok fs,
        serveFile ((start (stop s) os).snd) fs tok = fileNotFound) := by
  refine ⟨fun h => by simp [stop, h], fun h => by simp [stop, h], ?_⟩
  intro h os tok fs
  cases os <;> simp [stop, h, start, serveFile, mapGet]

/-- Witness for C6 (amended): start the fresh server at port 7, register a
token, stop — the state is fully reset — and after a restart at port 9 the
old token 404s. -/
theorem stop_clears_started_server_witness :
    stop ((registerFile ((start (initState "127.0.0.1") (StartOutcome.bound 7)).snd)
        "t1" "/t.pptx").snd)
      = ⟨false, [], 0, "127.0.0.1", []⟩
    ∧ serveFile
        ((start (stop ((registerFile
            ((start (initState "127.0.0.1") (StartOutcome.bound 7)).snd)
            "t1" "/t.pptx").snd)) (StartOutcome.bound 9)).snd)
        fsSample "t1"
      = fileNotFound := by
  constructor
  · exact (stop_clears_started_server ((registerFile
      ((start (initState "127.0.0.1") (StartOutcome.bound 7)).snd)
      "t1" "/t.pptx").snd)).1 rfl
  · exact (stop_clears_started_server ((registerFile
      ((start (initState "127.0.0.1") (StartOutcome.bound 7)).snd)
      "t1" "/t.pptx").snd)).2.2 rfl (StartOutcome.bound 9) "t1" fsSample

/-- C7. Serving a token that was just registered for a path holding a file of
`N` bytes answers 200 with `Content-Type` equal to the MIME-map entry for the
file's lower-cased extension (`application/octet-stream` outside the map),
`Content-Length = N`, a `Content-Disposition` attachment naming the file's
basename, and a body byte-identical to the file; serving any token with no
registered record answers the 404 plain-text response. -/
theorem serve_file_contract (s : FileServerState) (fs : FS) (token : String)
    (filePath : String) (bytes : List Nat) (unknownToken : String) :
    (fs filePath = some bytes →
      serveFile ((registerFile s token filePath).snd) fs token
        = ⟨200, mimeFor filePath, some bytes.length,
           some ("attachment; filename=\"" ++ basename filePath ++ "\""),
           Body.binary bytes⟩)
    ∧ (mapGet s.servedFiles unknownToken = none →
      serveFile s fs unknownToken = fileNotFound) := by
  constructor
  · intro h
    simp [serveFile, registerFile, mapGet_mapSet_self, h, mimeFor]
  · intro h
    simp [serveFile, h]

/-- Witness for C7: a token registered for the 3-byte sample file serves the
presentation MIME type, length 3 and the exact bytes; the unregistered token
`"nope"` 404s. -/
theorem serve_file_contract_witness :
    serveFile ((registerFile (initState "127.0.0.1") "tok" "/t.pptx").snd)
        fsSample "tok"
      = ⟨200, mimeFor "/t.pptx", some 3,
         some ("attachment; filename=\"" ++ basename "/t.pptx" ++ "\""),
         Body.binary [1, 2, 3]⟩
    ∧ serveFile (initState "127.0.0.1") fsSample "nope" = fileNotFound := by
  constructor
  · exact (serve_file_contract (initState "127.0.0.1") fsSample "tok" "/t.pptx"
      [1, 2, 3] "nope").1 rfl
  · exact (serve_file_contract (initState "127.0.0.1") fsSample "tok" "/t.pptx"
      [1, 2, 3] "nope").2 rfl

/-- C9. `unregisterFile(token)` removes exactly that token's file record and
callback binding: lookups of every other token in both registries are
unchanged, the token's own lookups come back empty, the other fields of the
server state are untouched, and unregistering a token bound in neither
registry leaves the state entirely unchanged (idempotent no-op, and being a
total function it cannot raise). -/
theorem unregister_frame (s : FileServerState) (token : String) :
    (∀ t, t ≠ token →
      mapGet (unregisterFile s token).servedFiles t = mapGet s.servedFiles t
      ∧ mapGet (unregisterFile s token).callbackHandlers t = mapGet s.callbackHandlers t)
    ∧ mapGet (unregisterFile s token).servedFiles token = none
    ∧ mapGet (unregisterFile s token).callbackHandlers token = none
    ∧ (unregisterFile s token).server = s.server
    ∧ (unregisterFile s token).port = s.port
    ∧ (unregisterFile s token).hostIp = s.hostIp
    ∧ (mapGet s.servedFiles token = none → mapGet s.callbackHandlers token = none →
        unregisterFile s token = s) := by
  refine ⟨?_, ?_, ?_, rfl, rfl, rfl, ?_⟩
  · intro t ht
    exact ⟨mapGet_mapDelete_ne s.servedFiles token t ht,
           mapGet_mapDelete_ne s.callbackHandlers token t ht⟩
  · exact mapGet_mapDelete_self s.servedFiles token
  · exact mapGet_mapDelete_self s.callbackHandlers token
  · intro h1 h2
    cases s with
    | mk sv files p ip handlers =>
      simp only [unregisterFile]
      rw [mapDelete_of_mapGet_none _ _ h1, mapDelete_of_mapGet_none _ _ h2]

/-- Witness for C9: on a server with token `"t"` registered and bound,
unregistering the unknown token `"u"` is an exact no-op and leaves the
lookup of `"t"` intact. -/
theorem unregister_frame_witness :
    unregisterFile (onCallback ((registerFile (initState "127.0.0.1") "t"
        "/t.pptx").snd) "t" 0) "u"
      = onCallback ((registerFile (initState "127.0.0.1") "t" "/t.pptx").snd) "t" 0
    ∧ mapGet (unregisterFile (onCallback ((registerFile (initState "127.0.0.1") "t"
        "/t.pptx").snd) "t" 0) "u").servedFiles "t"
      = some ⟨"/t.pptx", "t", mimeFor "/t.pptx"⟩ := by
  constructor
  · exact (unregister_frame (onCallback ((registerFile (initState "127.0.0.1") "t"
      "/t.pptx").snd) "t" 0) "u").2.2.2.2.2.2 (by decide) (by decide)
  · exact ((unregister_frame (onCallback ((registerFile (initState "127.0.0.1") "t"
      "/t.pptx").snd) "t" 0) "u").1 "t" (by decide)).1.trans (by decide)

/-- C10. Whenever the recorded port is 0 — before `start()` has completed,
i.e. on the fresh state, and again after `stop()` — `registerFile` still
stores the file record under the returned token, but the returned `url` and
`callbackUrl` embed port number 0. -/
theorem register_before_start_port_zero (s : FileServerState) (token : String)
    (filePath : String) (h : s.port = 0) :
    (registerFile s token filePath).fst.url
      = "http://" ++ s.hostIp ++ ":0/file/" ++ token
    ∧ (registerFile s token filePath).fst.callbackUrl
      = "http://" ++ s.hostIp ++ ":0/callback/" ++ token
    ∧ mapGet ((registerFile s token filePath).snd).servedFiles token
      = some ⟨filePath, token, mimeFor filePath⟩ := by
  refine ⟨?_, ?_, ?_⟩
  · simp only [registerFile, h]
    simp only [String.append_assoc]
    congr 1
  · simp only [registerFile, h]
    simp only [String.append_assoc]
    congr 1
  · simp [registerFile, mapGet_mapSet_self]

/-- Witness for C10 on the fresh (never started) server: the returned URLs
name port 0 and the record is stored. -/
theorem register_before_start_port_zero_witness :
    (registerFile (initState "10.0.0.5") "tok" "/deck.pptx").fst.url
      = "http://10.0.0.5:0/file/tok"
    ∧ (registerFile (initState "10.0.0.5") "tok" "/deck.pptx").fst.callbackUrl
      = "http://10.0.0.5:0/callback/tok"
    ∧ mapGet ((registerFile (initState "10.0.0.5") "tok" "/deck.pptx").snd).servedFiles
        "tok"
      = some ⟨"/deck.pptx", "tok", mimeFor "/deck.pptx"⟩ := by
  have h := register_before_start_port_zero (initState "10.0.0.5") "tok" "/deck.pptx" rfl
  exact ⟨h.1.trans (by decide), h.2.1.trans (by decide), h.2.2⟩

/-- C4 counterexample. When `start()` fails (the `listen` error event fires),
the server object has already been assigned while the recorded port is still
0 — and that partially-initialized state is visible through the public
operations: `getPort()` returns 0 although a server object exists, a second
`start()` resolves successfully with port 0, and `registerFile` hands out
URLs embedding port 0. This refutes the claim that no such state is visible
through start, stop, registerFile and getPort. -/
theorem premature_state_counterexample :
    ((start (initState "10.0.0.5") StartOutcome.failed).snd).server = true
    ∧ getPort ((start (initState "10.0.0.5") StartOutcome.failed).snd) = 0
    ∧ (start ((start (initState "10.0.0.5") StartOutcome.failed).snd)
        StartOutcome.failed).fst = StartResult.ok 0
    ∧ (registerFile ((start (initState "10.0.0.5") StartOutcome.failed).snd)
        "tok" "/a.pptx").fst.url = "http://10.0.0.5:0/file/tok" := by
  exact ⟨rfl, rfl, rfl, by decide⟩

/-- States of the file server reachable from a fresh instance through the
public operations, observed between operations, under the environment
assumption that every `start()` that is allowed to run either finds the
server already started or is bound by the OS to a nonzero ephemeral port. -/
inductive Reachable : FileServerState → Prop where
  | init (ip : String) : Reachable (initState ip)
  | startStep (s : FileServerState) (p : Nat) : Reachable s → p ≠ 0 →
      Reachable ((start s (StartOutcome.bound p)).snd)
  | stopStep (s : FileServerState) : Reachable s → Reachable (stop s)
  | registerStep (s : FileServerState) (token filePath : String) : Reachable s →
      Reachable ((registerFile s token filePath).snd)
  | unregisterStep (s : FileServerState) (token : String) : Reachable s →
      Reachable (unregisterFile s token)
  | bindStep (s : FileServerState) (token : String) (handler : Nat) : Reachable s →
      Reachable (onCallback s token handler)

/-- C4 as amended. Outside of a pending or failed `start()` — that is, in
every state reachable through completed public operations whose starts all
succeed with a nonzero OS-assigned port — the server is either fully stopped
(no server object and recorded port 0) or fully started (server object bound
to a nonzero port); no state with a server object and recorded port 0 is
observable. During a pending `start()`, or forever after a failed one, such
a partially-initialized state *is* visible (see the counterexample). -/
theorem fully_started_or_stopped (s : FileServerState) (h : Reachable s) :
    (s.server = false → s.port = 0) ∧ (s.server = true → s.port ≠ 0) := by
  induction h with
  | init ip => simp [initState]
  | startStep s p _ hp ih =>
    by_cases hs : s.server = true
    · simpa [start, hs] using ih
    · simp only [Bool.not_eq_true] at hs
      simp [start, hs, hp]
  | stopStep s _ ih =>
    by_cases hs : s.server = true
    · simp [stop, hs]
    · simp only [Bool.not_eq_true] at hs
      simpa [stop, hs] using ih
  | registerStep s token filePath _ ih => simpa [registerFile] using ih
  | unregisterStep s token _ ih => simpa [unregisterFile] using ih
  | bindStep s token handler _ ih => simpa [onCallback] using ih

/-- Witness for C4 (amended): the state after a clean start at port 7
followed by a registration is fully started with nonzero port. -/
theorem fully_started_or_stopped_witness :
    ((registerFile ((start (initState "127.0.0.1") (StartOutcome.bound 7)).snd)
      "tok" "/t.pptx").snd).port ≠ 0 := by
  exact (fully_started_or_stopped
    ((registerFile ((start (initState "127.0.0.1") (StartOutcome.bound 7)).snd)
      "tok" "/t.pptx").snd)
    (Reachable.registerStep _ "tok" "/t.pptx"
      (Reachable.startStep _ 7 (Reachable.init "127.0.0.1") (by decide)))).2 rfl
